import Mathlib

/-!
Verification of the expiry-date labeling tool (`src/core/annotation_manager.py`,
`src/core/image_processor.py`, `src/ui/display.py`, `src/utils/file_lock.py`,
`src/models/annotation.py`, `src/config.py`).

The Python code is shallowly embedded: Python `float` is modeled by `ℚ`,
Python `int` by `ℤ`, Python `dict` keyed by `crop_id` strings by an
association list with in-place update, and the annotation JSON file on disk by
the same association-list collection type. Side effects (file system, locking,
printing) are made explicit: the save routine takes the current on-disk
collection and an environment describing the outcome of each lock/IO attempt,
and returns the written collection together with the resulting in-memory
state.
-/

/-- Python `int(x)` applied to a float: truncation toward zero. -/
def pyInt (q : ℚ) : ℤ := if 0 ≤ q then ⌊q⌋ else -⌊-q⌋

/-- Python `round(x)`: round half to even. -/
def pyRound (q : ℚ) : ℤ :=
  let f := ⌊q⌋
  let r := q - f
  if r < 1/2 then f
  else if 1/2 < r then f + 1
  else if f % 2 = 0 then f else f + 1

/-!
Dictionary model. A Python `dict` keyed by `crop_id` strings is an association
list whose keys are unique; assignment `d[k] = v` replaces the value of an
existing key in place and otherwise appends a fresh binding, `del d[k]`
removes the binding, `k in d` queries the key set, `len(d)` is the number of
bindings.
-/

/-- The annotation collection type: Python `Dict[str, V]`. -/
def Coll (V : Type) : Type := List (String × V)

/-- Dictionary read `d[key]` (also `d.get(key)`), first binding wins. -/
def lookupC {V : Type} : Coll V → String → Option V
  | [], _ => none
  | (k, v) :: rest, key => if k = key then some v else lookupC rest key

/-- Dictionary assignment `d[key] = v`: replace in place or append. -/
def insertC {V : Type} : Coll V → String → V → Coll V
  | [], key, v => [(key, v)]
  | (k, w) :: rest, key, v =>
    if k = key then (k, v) :: rest else (k, w) :: insertC rest key v

/-- Dictionary deletion `del d[key]` (no-op when the key is absent). -/
def eraseC {V : Type} (c : Coll V) (key : String) : Coll V :=
  c.filter (fun kv => kv.1 ≠ key)

/-- The key list of a dictionary. -/
def keysC {V : Type} (c : Coll V) : List String :=
  c.map Prod.fst

/-- Python `len(d)`. -/
def sizeC {V : Type} (c : Coll V) : ℕ :=
  c.length

/-- The merge loop of `AnnotationManager.save` (annotation_manager.py lines
160-162): for every `crop_id` in the in-memory collection, overwrite the
corresponding entry of the collection re-read from disk. -/
def mergeColl {V : Type} : Coll V → Coll V → Coll V
  | disk, [] => disk
  | disk, (k, v) :: rest => mergeColl (insertC disk k v) rest

theorem keysC_nil {V : Type} : keysC ([] : Coll V) = [] := rfl

theorem keysC_cons {V : Type} (k : String) (v : V) (tl : Coll V) :
    keysC ((k, v) :: tl) = k :: keysC tl := rfl

theorem sizeC_cons {V : Type} (k : String) (v : V) (tl : Coll V) :
    sizeC ((k, v) :: tl) = sizeC tl + 1 := rfl

theorem lookupC_insertC {V : Type} (c : Coll V) (k : String) (v : V) (key : String) :
    lookupC (insertC c k v) key = if k = key then some v else lookupC c key := by
  induction c with
  | nil => simp [insertC, lookupC]
  | cons hd tl ih =>
    obtain ⟨k0, w⟩ := hd
    by_cases h0 : k0 = k
    · subst h0
      by_cases h1 : k0 = key <;> simp [insertC, lookupC, h1]
    · by_cases h1 : k0 = key
      · subst h1
        have hk : ¬ k = k0 := fun h => h0 h.symm
        simp [insertC, lookupC, h0, hk]
      · simp [insertC, lookupC, h0, h1, ih]

theorem lookupC_eq_none_of_not_mem {V : Type} (c : Coll V) (key : String)
    (h : key ∉ keysC c) : lookupC c key = none := by
  induction c with
  | nil => rfl
  | cons hd tl ih =>
    obtain ⟨k, v⟩ := hd
    rw [keysC_cons, List.mem_cons, not_or] at h
    simp only [lookupC, if_neg (fun hk : k = key => h.1 hk.symm)]
    exact ih h.2

theorem mem_keysC_insertC {V : Type} (c : Coll V) (k : String) (v : V) (a : String) :
    a ∈ keysC (insertC c k v) ↔ a ∈ keysC c ∨ a = k := by
  induction c with
  | nil => simp [insertC, keysC]
  | cons hd tl ih =>
    obtain ⟨k0, w⟩ := hd
    by_cases h0 : k0 = k
    · subst h0
      simp only [insertC, if_pos rfl, if_true, eq_self_iff_true, keysC_cons,
        List.mem_cons]
      tauto
    · simp only [insertC, if_neg h0, keysC_cons, List.mem_cons, ih]
      tauto

theorem mem_keysC_mergeColl {V : Type} (m : Coll V) :
    ∀ (disk : Coll V) (a : String), a ∈ keysC disk → a ∈ keysC (mergeColl disk m) := by
  induction m with
  | nil => intro disk a h; exact h
  | cons hd tl ih =>
    intro disk a h
    obtain ⟨k, v⟩ := hd
    exact ih _ a ((mem_keysC_insertC disk k v a).mpr (Or.inl h))

theorem lookupC_mergeColl_of_not_mem {V : Type} (m : Coll V) :
    ∀ (disk : Coll V) (key : String), key ∉ keysC m →
      lookupC (mergeColl disk m) key = lookupC disk key := by
  induction m with
  | nil => intro disk key _; rfl
  | cons hd tl ih =>
    intro disk key h
    obtain ⟨k, v⟩ := hd
    rw [keysC_cons, List.mem_cons, not_or] at h
    show lookupC (mergeColl (insertC disk k v) tl) key = lookupC disk key
    rw [ih _ key h.2, lookupC_insertC, if_neg (fun hk : k = key => h.1 hk.symm)]

theorem lookupC_mergeColl {V : Type} (m : Coll V) :
    ∀ (disk : Coll V) (key : String), (keysC m).Nodup →
      lookupC (mergeColl disk m) key =
        match lookupC m key with
        | some v => some v
        | none => lookupC disk key := by
  induction m with
  | nil => intro disk key _; rfl
  | cons hd tl ih =>
    intro disk key hm
    obtain ⟨k, v⟩ := hd
    rw [keysC_cons, List.nodup_cons] at hm
    by_cases hk : k = key
    · subst hk
      have htl : lookupC tl k = none := lookupC_eq_none_of_not_mem tl k hm.1
      show lookupC (mergeColl (insertC disk k v) tl) k = _
      rw [ih _ k hm.2, htl, lookupC_insertC, if_pos rfl]
      simp [lookupC, htl]
    · show lookupC (mergeColl (insertC disk k v) tl) key = _
      rw [ih _ key hm.2, lookupC_insertC, if_neg hk]
      simp only [lookupC, if_neg hk]

theorem sizeC_insertC {V : Type} (c : Coll V) (k : String) (v : V) :
    sizeC (insertC c k v) = if k ∈ keysC c then sizeC c else sizeC c + 1 := by
  induction c with
  | nil => simp [insertC, sizeC, keysC]
  | cons hd tl ih =>
    obtain ⟨k0, w⟩ := hd
    by_cases h0 : k0 = k
    · subst h0
      simp [insertC, keysC_cons, sizeC_cons]
    · have hne : ¬ k = k0 := fun h => h0 h.symm
      simp only [insertC, if_neg h0, sizeC_cons, keysC_cons, List.mem_cons, ih]
      by_cases hm : k ∈ keysC tl
      · simp [hm, hne]
      · simp [hm, hne]

theorem not_mem_keysC_eraseC {V : Type} (c : Coll V) (key : String) :
    key ∉ keysC (eraseC c key) := by
  intro h
  simp only [keysC, eraseC, List.mem_map] at h
  obtain ⟨kv, hmem, hfst⟩ := h
  have hp := List.of_mem_filter hmem
  simp only [ne_eq, decide_not, Bool.not_eq_true', decide_eq_false_iff_not] at hp
  exact hp hfst

/-!
Data model of `src/models/annotation.py` and the store of
`src/core/annotation_manager.py`. The `timestamp` field (a wall-clock string
in the source) is kept as an uninterpreted string with default value `""`.
-/

/-- The `AnnotationStatus` enum of annotation.py. -/
inductive AnnotStatus
  | annotated
  | illegible
  | pending
deriving DecidableEq, Repr

/-- A geometry dict as built by `AnnotationManager._create_geometry`: either a
bbox record with normalized center/size fractions or a polygon coordinate
list. -/
inductive Geometry
  | gbbox (x_center y_center width height : ℚ)
  | gpoly (coords : List ℚ)
deriving DecidableEq, Repr

/-- The box dict handed to `add_annotation` / `add_illegible` /
`calculate_auto_zoom`: a geometry plus the class fields. -/
structure BoxDict where
  geom : Geometry
  class_id : ℤ
  class_name : String
deriving DecidableEq, Repr

/-- The `Annotation` dataclass of annotation.py. -/
structure AnnotRec where
  crop_id : String
  image_name : String
  subset : String
  box_index : ℤ
  class_id : ℤ
  class_name : String
  geometry : Geometry
  expiry_date : Option String := none
  expiry_date_raw : Option String := none
  status : AnnotStatus := .pending
  timestamp : String := ""
deriving DecidableEq, Repr

/-- `AnnotationManager._create_geometry`: keeps the polygon coordinates or the
bbox fields of the incoming box dict. -/
def create_geometry (box : BoxDict) : Geometry :=
  box.geom

namespace Manager

/-- `AnnotationManager._auto_save` condition (annotation_manager.py lines
117-120): a save is issued exactly when `len(self.annotations) % 5 == 0`. -/
def auto_save_triggered (m : Coll AnnotRec) : Bool :=
  sizeC m % 5 == 0

/-- `AnnotationManager.add_annotation` (annotation_manager.py lines 42-69):
builds the `Annotation` with status `ANNOTATED`, stores it in the in-memory
dict under `crop_id`, and runs the auto-save check. Returns the new in-memory
collection and whether the auto-save fired. -/
def add_annot (mem : Coll AnnotRec) (crop_id image_name subset : String)
    (box_index : ℤ) (box : BoxDict) (expiry_date expiry_date_raw : String) :
    Coll AnnotRec × Bool :=
  let geometry := create_geometry box
  let ann : AnnotRec :=
    { crop_id, image_name, subset, box_index,
      class_id := box.class_id, class_name := box.class_name, geometry,
      expiry_date := some expiry_date, expiry_date_raw := some expiry_date_raw,
      status := .annotated }
  let m := insertC mem crop_id ann
  (m, auto_save_triggered m)

/-- `AnnotationManager.add_illegible` (annotation_manager.py lines 71-94):
same as `add_annot` but with status `ILLEGIBLE` and no date fields. -/
def add_illegible (mem : Coll AnnotRec) (crop_id image_name subset : String)
    (box_index : ℤ) (box : BoxDict) : Coll AnnotRec × Bool :=
  let geometry := create_geometry box
  let ann : AnnotRec :=
    { crop_id, image_name, subset, box_index,
      class_id := box.class_id, class_name := box.class_name, geometry,
      status := .illegible }
  let m := insertC mem crop_id ann
  (m, auto_save_triggered m)

/-- `AnnotationManager.remove_annotation` (annotation_manager.py lines 96-99):
deletes the key from the in-memory dict only; the file is not touched. -/
def remove_annot {V : Type} (mem : Coll V) (crop_id : String) : Coll V :=
  eraseC mem crop_id

end Manager

/-- Outcome of one `save` attempt: the `FileLock` context manager raises
`TimeoutError` (file_lock.py lines 46-50), some other I/O step raises, or the
attempt reaches the atomic rename and succeeds. -/
inductive AttemptOutcome
  | lockTimeout
  | ioError
  | success
deriving DecidableEq, Repr

/-- The retry loop of `AnnotationManager.save` (annotation_manager.py lines
135-190). `fuel` is the number of remaining attempts, `attempt` the index of
the current one and `env` the outcome of each attempt. On success the target
file atomically becomes the re-read disk collection merged with the in-memory
one and the loop returns; both exception handlers swallow their exception, so
when the attempts are exhausted the loop falls through and the function
returns normally. The result is the written collection (`none` when no write
happened) paired with the in-memory collection, which the body never
mutates. -/
def saveGo {V : Type} (mem disk : Coll V) (env : ℕ → AttemptOutcome) :
    ℕ → ℕ → Option (Coll V) × Coll V
  | _, 0 => (none, mem)
  | attempt, fuel + 1 =>
    match env attempt with
    | .success => (some (mergeColl disk mem), mem)
    | .lockTimeout => saveGo mem disk env (attempt + 1) fuel
    | .ioError => saveGo mem disk env (attempt + 1) fuel

namespace Manager

/-- `AnnotationManager.save(max_retries)` over an explicit attempt-outcome
environment. -/
def save {V : Type} (mem disk : Coll V) (max_retries : ℕ)
    (env : ℕ → AttemptOutcome) : Option (Coll V) × Coll V :=
  saveGo mem disk env 0 max_retries

end Manager

/-!
Viewport transform engine: config dataclasses of `src/config.py`, the display
sizing and viewport state of `src/ui/display.py`, and the auto-framing of
`src/core/image_processor.py`.
-/

/-- The `DisplayConfig` dataclass of config.py with its default values. -/
structure DisplayConfig where
  max_width : ℤ := 1200
  max_height : ℤ := 800
  min_width : ℤ := 400
  min_height : ℤ := 300
  auto_zoom_coverage : ℚ := 6/10
  brightness_step : ℚ := 10
  contrast_step : ℚ := 1/10
  default_brightness : ℚ := 0
  default_contrast : ℚ := 1
  rotation_step : ℚ := 10
  default_rotation : ℚ := 0
  delay : ℚ := 2
deriving DecidableEq, Repr

/-- The `ZoomConfig` dataclass of config.py with its default values. -/
structure ZoomConfig where
  min_zoom : ℚ := 1/2
  max_zoom : ℚ := 5
  zoom_step : ℚ := 1/5
  pan_step : ℤ := 50
deriving DecidableEq, Repr

/-- `DisplayManager.get_display_size` (display.py lines 284-305): images below
either configured minimum are scaled up by the larger min ratio; all other
images are scaled by the smaller of the max ratios, capped at 1.0. -/
def get_display_size (cfg : DisplayConfig) (img_width img_height : ℤ) : ℤ × ℤ :=
  if img_width < cfg.min_width ∨ img_height < cfg.min_height then
    let scale : ℚ :=
      max ((cfg.min_width : ℚ) / (img_width : ℚ))
        ((cfg.min_height : ℚ) / (img_height : ℚ))
    (pyInt ((img_width : ℚ) * scale), pyInt ((img_height : ℚ) * scale))
  else
    let scale : ℚ :=
      min (min ((cfg.max_width : ℚ) / (img_width : ℚ))
        ((cfg.max_height : ℚ) / (img_height : ℚ))) 1
    (pyInt ((img_width : ℚ) * scale), pyInt ((img_height : ℚ) * scale))

/-- `BoundingBox.to_absolute` (annotation.py lines 31-43): corners of the
normalized box in source-pixel space, truncated to int. -/
def bbox_to_absolute (x_center y_center width height : ℚ)
    (img_width img_height : ℤ) : ℤ × ℤ × ℤ × ℤ :=
  let x_center_abs := x_center * (img_width : ℚ)
  let y_center_abs := y_center * (img_height : ℚ)
  let width_abs := width * (img_width : ℚ)
  let height_abs := height * (img_height : ℚ)
  (pyInt (x_center_abs - width_abs / 2), pyInt (y_center_abs - height_abs / 2),
    pyInt (x_center_abs + width_abs / 2), pyInt (y_center_abs + height_abs / 2))

/-- `Polygon.to_points` (annotation.py lines 58-66): consecutive coordinate
pairs scaled to pixel space and truncated to int. (For an odd-length
coordinate list the source raises `IndexError` on the final element; the model
stops there instead.) -/
def polygon_to_points (img_width img_height : ℤ) : List ℚ → List (ℤ × ℤ)
  | x :: y :: rest =>
    (pyInt (x * (img_width : ℚ)), pyInt (y * (img_height : ℚ))) ::
      polygon_to_points img_width img_height rest
  | _ => []

/-- `Polygon.get_bounding_box` (annotation.py lines 68-76): min/max envelope
of the absolute points; `none` models the numpy error on an empty point
array. -/
def polygon_bbox (img_width img_height : ℤ) (coords : List ℚ) :
    Option (ℤ × ℤ × ℤ × ℤ) :=
  match polygon_to_points img_width img_height coords with
  | [] => none
  | p :: ps =>
    some ((ps.map Prod.fst).foldl min p.1, (ps.map Prod.snd).foldl min p.2,
      (ps.map Prod.fst).foldl max p.1, (ps.map Prod.snd).foldl max p.2)

/-- The bbox-resolution step of `ImageProcessor.calculate_auto_zoom`
(image_processor.py lines 134-141): polygon envelope or absolute bbox. -/
def get_abs_bbox (box : Geometry) (img_width img_height : ℤ) :
    Option (ℤ × ℤ × ℤ × ℤ) :=
  match box with
  | .gpoly coords => polygon_bbox img_width img_height coords
  | .gbbox xc yc w h => some (bbox_to_absolute xc yc w h img_width img_height)

/-- The zoomed image dimension of image_processor.py lines 180-181:
`int(max(1, round(dim * zoom)))`. -/
def zoomed_dim (dim : ℤ) (zoom : ℚ) : ℤ :=
  max 1 (pyRound ((dim : ℚ) * zoom))

/-- Body of `ImageProcessor.calculate_auto_zoom` (image_processor.py lines
143-189) after the bbox has been resolved to absolute corners. -/
def auto_zoom_core (x1 y1 x2 y2 : ℤ)
    (img_width img_height display_w display_h window_w window_h : ℤ)
    (target_coverage min_zoom max_zoom : ℚ) : ℚ × ℤ × ℤ :=
  let bbox_w : ℚ := max 1 ((x2 : ℚ) - (x1 : ℚ))
  let bbox_h : ℚ := max 1 ((y2 : ℚ) - (y1 : ℚ))
  let bbox_cx : ℚ := ((x1 : ℚ) + (x2 : ℚ)) / 2
  let bbox_cy : ℚ := ((y1 : ℚ) + (y2 : ℚ)) / 2
  let scale : ℚ := if 0 < img_width then (display_w : ℚ) / (img_width : ℚ) else 1
  let scaled_bbox_w := bbox_w * scale
  let scaled_bbox_h := bbox_h * scale
  let zoom_needed_w := ((display_w : ℚ) * target_coverage) / scaled_bbox_w
  let zoom_needed_h := ((display_h : ℚ) * target_coverage) / scaled_bbox_h
  let auto_zoom_display := min zoom_needed_w zoom_needed_h
  let zoom_for_display := max min_zoom (min max_zoom (auto_zoom_display * scale))
  let pan_x := pyRound (bbox_cx * zoom_for_display - (window_w : ℚ) / 2)
  let pan_y := pyRound (bbox_cy * zoom_for_display - (window_h : ℚ) / 2)
  let max_pan_x := max 0 (zoomed_dim img_width zoom_for_display - window_w)
  let max_pan_y := max 0 (zoomed_dim img_height zoom_for_display - window_h)
  (zoom_for_display, max 0 (min pan_x max_pan_x), max 0 (min pan_y max_pan_y))

/-- `ImageProcessor.calculate_auto_zoom` (image_processor.py lines 112-189).
`none` models the error raised while resolving an empty polygon. -/
def calculate_auto_zoom (box : Geometry)
    (img_width img_height display_w display_h window_w window_h : ℤ)
    (target_coverage min_zoom max_zoom : ℚ) : Option (ℚ × ℤ × ℤ) :=
  match get_abs_bbox box img_width img_height with
  | none => none
  | some (x1, y1, x2, y2) =>
    some (auto_zoom_core x1 y1 x2 y2 img_width img_height display_w display_h
      window_w window_h target_coverage min_zoom max_zoom)

/-- The mutable viewport fields of `DisplayManager.__init__` (display.py lines
15-44). The image buffer and thread handles are outside the model. -/
structure DisplayState where
  zoom_level : ℚ := 1
  pan_x : ℤ := 0
  pan_y : ℤ := 0
  brightness : ℚ := 0
  contrast : ℚ := 1
  rotation : ℚ := 0
  should_update : Bool := false
  window_width : ℤ := 640
  window_height : ℤ := 640
deriving DecidableEq, Repr

/-- `DisplayManager.MIN_ZOOM_FOR_SAFETY` (display.py line 26). -/
def MIN_ZOOM_FOR_SAFETY : ℚ := 1/100

/-- `DisplayManager.set_zoom_pan` (display.py lines 267-282): floor the zoom
at `MIN_ZOOM_FOR_SAFETY`, cap it at `zoom_config.max_zoom` when that
attribute is set and truthy (nonzero), clamp both pans below at 0, reset
brightness/contrast/rotation to the configured defaults and request a
redraw. -/
def set_zoom_pan (dcfg : DisplayConfig) (zcfg : ZoomConfig) (s : DisplayState)
    (zoom : ℚ) (pan_x pan_y : ℤ) : DisplayState :=
  let z1 := max MIN_ZOOM_FOR_SAFETY zoom
  let z2 := if zcfg.max_zoom ≠ 0 then min z1 zcfg.max_zoom else z1
  { s with
    zoom_level := z2,
    pan_x := max 0 pan_x,
    pan_y := max 0 pan_y,
    brightness := dcfg.default_brightness,
    contrast := dcfg.default_contrast,
    rotation := dcfg.default_rotation,
    should_update := true }

/-- The four pan keys of `DisplayManager._handle_key` (w/s/a/d). -/
inductive PanKey
  | up
  | down
  | left
  | right
deriving DecidableEq, Repr

/-- The pan branches of `DisplayManager._handle_key` (display.py lines
558-570) followed by the `should_update` flag set (lines 605-606): up and
left clamp below at 0, down and right add the step unclamped. -/
def handle_pan_key (zcfg : ZoomConfig) (k : PanKey) (s : DisplayState) :
    DisplayState :=
  match k with
  | .up => { s with pan_y := max 0 (s.pan_y - zcfg.pan_step), should_update := true }
  | .down => { s with pan_y := s.pan_y + zcfg.pan_step, should_update := true }
  | .left => { s with pan_x := max 0 (s.pan_x - zcfg.pan_step), should_update := true }
  | .right => { s with pan_x := s.pan_x + zcfg.pan_step, should_update := true }

/-- `DisplayManager._is_valid_bbox` (display.py lines 241-261): reject a
candidate larger than 95% of the image area, smaller than 1% of it, or
narrower/shorter than 50 pixels. -/
def is_valid_bbox (bbox : ℤ × ℤ × ℤ × ℤ) (img_w img_h : ℤ) : Bool :=
  let x1 := bbox.1
  let y1 := bbox.2.1
  let x2 := bbox.2.2.1
  let y2 := bbox.2.2.2
  let bbox_w := x2 - x1
  let bbox_h := y2 - y1
  let bbox_area := bbox_w * bbox_h
  let image_area := img_w * img_h
  if (bbox_area : ℚ) > (image_area : ℚ) * (95/100) then false
  else if (bbox_area : ℚ) < (image_area : ℚ) * (1/100) then false
  else if bbox_w < 50 ∨ bbox_h < 50 then false
  else true

/-- One `if bbox and self._is_valid_bbox(...): return bbox` step of
`DisplayManager._detect_content_bbox_robust`. -/
def tryStrategy (img_w img_h : ℤ) (r fallback : Option (ℤ × ℤ × ℤ × ℤ)) :
    Option (ℤ × ℤ × ℤ × ℤ) :=
  match r with
  | some b => if is_valid_bbox b img_w img_h then some b else fallback
  | none => fallback

/-- `DisplayManager._detect_content_bbox_robust` (display.py lines 116-144)
over the four strategy candidates (low threshold, higher threshold, Canny
edges, local variance — pixel-level routines that are inputs here): the first
valid candidate wins, otherwise no region. -/
def detect_content_bbox_robust (img_w img_h : ℤ)
    (r1 r2 r3 r4 : Option (ℤ × ℤ × ℤ × ℤ)) : Option (ℤ × ℤ × ℤ × ℤ) :=
  tryStrategy img_w img_h r1
    (tryStrategy img_w img_h r2
      (tryStrategy img_w img_h r3
        (tryStrategy img_w img_h r4 none)))

/-!
Claim theorems: annotation store.
-/

theorem saveGo_all_fail {V : Type} (mem disk : Coll V) (env : ℕ → AttemptOutcome) :
    ∀ (fuel attempt : ℕ), (∀ i, i < fuel → env (attempt + i) ≠ .success) →
      saveGo mem disk env attempt fuel = (none, mem) := by
  intro fuel
  induction fuel with
  | zero => intro attempt _; rfl
  | succ n ih =>
    intro attempt h
    have h0 : env attempt ≠ .success := by
      have h1 := h 0 (Nat.succ_pos n)
      simpa using h1
    have hshift : ∀ i, i < n → env (attempt + 1 + i) ≠ .success := by
      intro i hi
      have h2 := h (i + 1) (Nat.succ_lt_succ hi)
      have h3 : attempt + (i + 1) = attempt + 1 + i := by omega
      rwa [h3] at h2
    cases henv : env attempt with
    | success => exact absurd henv h0
    | lockTimeout =>
      simp only [saveGo, henv]
      exact ih (attempt + 1) hshift
    | ioError =>
      simp only [saveGo, henv]
      exact ih (attempt + 1) hshift

/-- Claim C1: a successful save writes the collection re-read from disk inside the
lock with every `crop_id` of the in-memory collection overwritten by the
in-memory value (last-writer-wins per key), so keys present only on disk are
preserved; in particular if store A saves `x:v1` and store B (loaded before
that save) then saves `y:v2`, the final file holds both `x:v1` and `y:v2`. -/
theorem save_merge_last_writer_wins {V : Type} (disk mem : Coll V)
    (hm : (keysC mem).Nodup) (key x y : String) (v1 v2 : V) (hxy : x ≠ y) :
    (lookupC (mergeColl disk mem) key =
      match lookupC mem key with
      | some v => some v
      | none => lookupC disk key) ∧
    lookupC (mergeColl (mergeColl disk [(x, v1)]) [(y, v2)]) x = some v1 ∧
    lookupC (mergeColl (mergeColl disk [(x, v1)]) [(y, v2)]) y = some v2 := by
  have hstep : mergeColl (mergeColl disk [(x, v1)]) [(y, v2)]
      = insertC (insertC disk x v1) y v2 := rfl
  refine ⟨lookupC_mergeColl mem disk key hm, ?_, ?_⟩
  · rw [hstep, lookupC_insertC, if_neg (fun h : y = x => hxy h.symm),
      lookupC_insertC, if_pos rfl]
  · rw [hstep, lookupC_insertC, if_pos rfl]

theorem save_merge_last_writer_wins_witness :
    (keysC [("x", (1 : ℕ))]).Nodup ∧ ("x" : String) ≠ "y" ∧
    ((lookupC (mergeColl [("d", (0 : ℕ))] [("x", 1)]) "x" =
      match lookupC [("x", (1 : ℕ))] "x" with
      | some v => some v
      | none => lookupC [("d", (0 : ℕ))] "x") ∧
    lookupC (mergeColl (mergeColl [("d", (0 : ℕ))] [("x", 1)]) [("y", 2)]) "x"
      = some 1 ∧
    lookupC (mergeColl (mergeColl [("d", (0 : ℕ))] [("x", 1)]) [("y", 2)]) "y"
      = some 2) :=
  ⟨by decide, by decide,
    save_merge_last_writer_wins [("d", 0)] [("x", 1)] (by decide) "x" "x" "y"
      1 2 (by decide)⟩

/-- Claim C3: when every attempt fails (lock timeout or I/O error), `save` returns
normally (both handlers swallow their exception) with no write performed, and
the in-memory collection is exactly what it was before the call. -/
theorem save_retry_exhaustion_preserves_memory {V : Type} (mem disk : Coll V)
    (max_retries : ℕ) (env : ℕ → AttemptOutcome)
    (hfail : ∀ i, i < max_retries → env i ≠ .success) :
    Manager.save mem disk max_retries env = (none, mem) := by
  have h := saveGo_all_fail mem disk env max_retries 0 (fun i hi => by
    simpa using hfail i hi)
  simpa [Manager.save] using h

theorem save_retry_exhaustion_preserves_memory_witness :
    (∀ i, i < 3 → (fun _ : ℕ => AttemptOutcome.lockTimeout) i ≠ .success) ∧
    Manager.save [("x", (1 : ℕ))] [("d", 0)] 3 (fun _ => .lockTimeout)
      = (none, [("x", 1)]) :=
  ⟨fun _ _ h => AttemptOutcome.noConfusion h,
    save_retry_exhaustion_preserves_memory [("x", 1)] [("d", 0)] 3
      (fun _ => .lockTimeout) (fun _ _ h => AttemptOutcome.noConfusion h)⟩

/-- Claim C9: a save never deletes a key from the on-disk collection (the merged
key set contains every key read from disk), and removing a persisted
`crop_id` from memory and then saving leaves that entry on disk with its
on-disk value. -/
theorem save_preserves_disk_keys {V : Type} (disk mem : Coll V) (cid : String)
    (v : V) (hdisk : lookupC disk cid = some v) :
    (∀ k, k ∈ keysC disk → k ∈ keysC (mergeColl disk mem)) ∧
    lookupC (mergeColl disk (Manager.remove_annot mem cid)) cid = some v := by
  refine ⟨fun k hk => mem_keysC_mergeColl mem disk k hk, ?_⟩
  rw [lookupC_mergeColl_of_not_mem (Manager.remove_annot mem cid) disk cid
    (not_mem_keysC_eraseC mem cid), hdisk]

theorem save_preserves_disk_keys_witness :
    lookupC [("a", (7 : ℕ))] "a" = some 7 ∧
    ((∀ k, k ∈ keysC [("a", (7 : ℕ))] →
        k ∈ keysC (mergeColl [("a", (7 : ℕ))] [("a", 9), ("b", 1)])) ∧
      lookupC (mergeColl [("a", (7 : ℕ))]
        (Manager.remove_annot [("a", 9), ("b", 1)] "a")) "a" = some 7) :=
  ⟨by decide,
    save_preserves_disk_keys [("a", 7)] [("a", 9), ("b", 1)] "a" 7 (by decide)⟩

/-- Claim C8 amended: `add_annotation` and `add_illegible` fire the auto-save
exactly when the total number of in-memory annotations after the commit is a
multiple of 5; that total counts entries preloaded from disk and reflects
removals and overwrites, so it is not the count of new annotations since the
last save. -/
theorem auto_save_on_multiple_of_total_size
    (mem : Coll AnnotRec) (crop_id image_name subset : String) (box_index : ℤ)
    (box : BoxDict) (expiry_date expiry_date_raw : String) :
    ((Manager.add_annot mem crop_id image_name subset box_index box
        expiry_date expiry_date_raw).2 = true ↔
      sizeC (Manager.add_annot mem crop_id image_name subset box_index box
        expiry_date expiry_date_raw).1 % 5 = 0) ∧
    ((Manager.add_illegible mem crop_id image_name subset box_index box).2
        = true ↔
      sizeC (Manager.add_illegible mem crop_id image_name subset
        box_index box).1 % 5 = 0) ∧
    sizeC (Manager.add_annot mem crop_id image_name subset box_index box
        expiry_date expiry_date_raw).1 =
      (if crop_id ∈ keysC mem then sizeC mem else sizeC mem + 1) := by
  refine ⟨?_, ?_, ?_⟩
  · simp [Manager.add_annot, Manager.auto_save_triggered]
  · simp [Manager.add_illegible, Manager.auto_save_triggered]
  · simp only [Manager.add_annot]
    exact sizeC_insertC mem crop_id _

/-- Minimal annotation record used by the auto-save cadence counterexample. -/
def sampleRec (cid : String) : AnnotRec :=
  { crop_id := cid, image_name := "img", subset := "train", box_index := 0,
    class_id := 0, class_name := "date", geometry := .gbbox 0 0 0 0 }

/-- Claim C8 counterexample: with 4 annotations preloaded from disk, the very first
new annotation committed through `add_annotation` already fires the auto-save
(the in-memory total reaches 5), although it is the 1st new annotation since
the last save and 1 is not a multiple of 5. -/
theorem auto_save_cadence_counterexample :
    (Manager.add_annot
      [("c1", sampleRec "c1"), ("c2", sampleRec "c2"),
        ("c3", sampleRec "c3"), ("c4", sampleRec "c4")]
      "c5" "img" "train" 0 ⟨.gbbox 0 0 0 0, 0, "date"⟩
      "2025-01-01" "01/2025").2 = true ∧
    sizeC [("c1", sampleRec "c1"), ("c2", sampleRec "c2"),
        ("c3", sampleRec "c3"), ("c4", sampleRec "c4")] = 4 ∧
    1 % 5 ≠ 0 := by
  refine ⟨by decide, by decide, by decide⟩

/-!
Claim theorems: viewport state transitions.
-/

/-- Claim C10: `set_zoom_pan` sets the zoom to the requested value clamped to
[0.01, max_zoom] (the configured `max_zoom` being nonzero), clamps both pan
components below at 0, resets brightness, contrast and rotation to the
configured defaults, requests a redraw via `should_update`, and leaves the
window dimensions unchanged. -/
theorem set_zoom_pan_clamps_and_resets
    (dcfg : DisplayConfig) (zcfg : ZoomConfig) (s : DisplayState)
    (zoom : ℚ) (pan_x pan_y : ℤ) (hmz : zcfg.max_zoom ≠ 0) :
    (set_zoom_pan dcfg zcfg s zoom pan_x pan_y).zoom_level
        = min (max (1/100) zoom) zcfg.max_zoom ∧
    (set_zoom_pan dcfg zcfg s zoom pan_x pan_y).pan_x = max 0 pan_x ∧
    (set_zoom_pan dcfg zcfg s zoom pan_x pan_y).pan_y = max 0 pan_y ∧
    (set_zoom_pan dcfg zcfg s zoom pan_x pan_y).brightness
        = dcfg.default_brightness ∧
    (set_zoom_pan dcfg zcfg s zoom pan_x pan_y).contrast
        = dcfg.default_contrast ∧
    (set_zoom_pan dcfg zcfg s zoom pan_x pan_y).rotation
        = dcfg.default_rotation ∧
    (set_zoom_pan dcfg zcfg s zoom pan_x pan_y).window_width = s.window_width ∧
    (set_zoom_pan dcfg zcfg s zoom pan_x pan_y).window_height = s.window_height ∧
    (set_zoom_pan dcfg zcfg s zoom pan_x pan_y).should_update = true := by
  simp [set_zoom_pan, MIN_ZOOM_FOR_SAFETY, hmz]

theorem set_zoom_pan_clamps_and_resets_witness :
    (({} : ZoomConfig).max_zoom ≠ 0) ∧
    ((set_zoom_pan {} {} {} 10 (-3) 7).zoom_level
        = min (max (1/100) 10) ({} : ZoomConfig).max_zoom ∧
    (set_zoom_pan {} {} {} 10 (-3) 7).pan_x = max 0 (-3) ∧
    (set_zoom_pan {} {} {} 10 (-3) 7).pan_y = max 0 7 ∧
    (set_zoom_pan {} {} {} 10 (-3) 7).brightness
        = ({} : DisplayConfig).default_brightness ∧
    (set_zoom_pan {} {} {} 10 (-3) 7).contrast
        = ({} : DisplayConfig).default_contrast ∧
    (set_zoom_pan {} {} {} 10 (-3) 7).rotation
        = ({} : DisplayConfig).default_rotation ∧
    (set_zoom_pan {} {} {} 10 (-3) 7).window_width
        = ({} : DisplayState).window_width ∧
    (set_zoom_pan {} {} {} 10 (-3) 7).window_height
        = ({} : DisplayState).window_height ∧
    (set_zoom_pan {} {} {} 10 (-3) 7).should_update = true) :=
  ⟨show (5 : ℚ) ≠ 0 by norm_num,
    set_zoom_pan_clamps_and_resets {} {} {} 10 (-3) 7
      (show (5 : ℚ) ≠ 0 by norm_num)⟩

/-- Claim C5 amended: all four pan keys keep both pan components nonnegative
(given a nonnegative step): up and left clamp below at 0 explicitly, down and
right add the step without any clamp, so neither is bounded above by
`max_pan` at key time. -/
theorem pan_step_keeps_pan_nonneg (zcfg : ZoomConfig) (s : DisplayState)
    (k : PanKey) (hx : 0 ≤ s.pan_x) (hy : 0 ≤ s.pan_y)
    (hstep : 0 ≤ zcfg.pan_step) :
    0 ≤ (handle_pan_key zcfg k s).pan_x ∧
    0 ≤ (handle_pan_key zcfg k s).pan_y := by
  cases k with
  | up => exact ⟨hx, le_max_left 0 _⟩
  | down => exact ⟨hx, add_nonneg hy hstep⟩
  | left => exact ⟨le_max_left 0 _, hy⟩
  | right => exact ⟨add_nonneg hx hstep, hy⟩

theorem pan_step_keeps_pan_nonneg_witness :
    (0 ≤ ({} : DisplayState).pan_x) ∧ (0 ≤ ({} : DisplayState).pan_y) ∧
    (0 ≤ ({} : ZoomConfig).pan_step) ∧
    (0 ≤ (handle_pan_key {} .down {}).pan_x ∧
      0 ≤ (handle_pan_key {} .down {}).pan_y) :=
  ⟨by decide, by decide, by decide,
    pan_step_keeps_pan_nonneg {} {} .down (by decide) (by decide) (by decide)⟩

/-- Claim C5 counterexample: with the default pan step 50, window 640, a 640×640
image at zoom 1.0 the zoomed dimension is 640 and `max_pan` is 0; from the
fresh viewport state (pan at its maximum, 0) the down key moves `pan_y` to
50, outside [0, max_pan]. -/
theorem pan_step_exceeds_max_pan_counterexample :
    (handle_pan_key {} .down {}).pan_y = 50 ∧
    max 0 (zoomed_dim 640 1 - 640) = 0 ∧
    ¬ ((handle_pan_key {} .down {}).pan_y ≤ max 0 (zoomed_dim 640 1 - 640)) := by
  have hz : zoomed_dim 640 1 = 640 := by norm_num [zoomed_dim, pyRound]
  have hp : (handle_pan_key {} .down {}).pan_y = 50 := by decide
  refine ⟨hp, ?_, ?_⟩
  · rw [hz]
    decide
  · rw [hp, hz]
    decide

/-!
Claim theorems: display sizing and auto-framing.
-/

theorem pyInt_mul_le (dim m : ℤ) (s : ℚ) (hdim : 0 < dim) (hs0 : 0 ≤ s)
    (hsm : s ≤ (m : ℚ) / (dim : ℚ)) : pyInt ((dim : ℚ) * s) ≤ m := by
  have hdq : (0 : ℚ) < (dim : ℚ) := by exact_mod_cast hdim
  have hle : (dim : ℚ) * s ≤ (m : ℚ) := by
    have h1 : s * (dim : ℚ) ≤ (m : ℚ) := (le_div_iff₀ hdq).mp hsm
    linarith [h1]
  have h0 : 0 ≤ (dim : ℚ) * s := mul_nonneg hdq.le hs0
  rw [pyInt, if_pos h0]
  calc ⌊(dim : ℚ) * s⌋ ≤ ⌊(m : ℚ)⌋ := Int.floor_mono hle
    _ = m := Int.floor_intCast m

/-- Claim C4 amended: for a source image at least as large as the configured
minimums in both dimensions, `get_display_size` returns a display size within
the configured maximum bounds; the upscale branch taken for sub-minimum
sources scales by the larger min ratio and can exceed the maximums. -/
theorem get_display_size_within_max_when_at_least_min
    (cfg : DisplayConfig) (img_width img_height : ℤ)
    (hw : 0 < img_width) (hh : 0 < img_height)
    (hminw : cfg.min_width ≤ img_width) (hminh : cfg.min_height ≤ img_height)
    (hmaxw : 0 ≤ cfg.max_width) (hmaxh : 0 ≤ cfg.max_height) :
    (get_display_size cfg img_width img_height).1 ≤ cfg.max_width ∧
    (get_display_size cfg img_width img_height).2 ≤ cfg.max_height := by
  have hcond : ¬ (img_width < cfg.min_width ∨ img_height < cfg.min_height) := by
    push_neg
    exact ⟨hminw, hminh⟩
  have hwq : (0 : ℚ) < (img_width : ℚ) := by exact_mod_cast hw
  have hhq : (0 : ℚ) < (img_height : ℚ) := by exact_mod_cast hh
  have hs0 : 0 ≤ min (min ((cfg.max_width : ℚ) / (img_width : ℚ))
      ((cfg.max_height : ℚ) / (img_height : ℚ))) 1 := by
    refine le_min (le_min ?_ ?_) (by norm_num)
    · exact div_nonneg (by exact_mod_cast hmaxw) hwq.le
    · exact div_nonneg (by exact_mod_cast hmaxh) hhq.le
  have hgds : get_display_size cfg img_width img_height
      = (pyInt ((img_width : ℚ) *
          (min (min ((cfg.max_width : ℚ) / (img_width : ℚ))
            ((cfg.max_height : ℚ) / (img_height : ℚ))) 1)),
        pyInt ((img_height : ℚ) *
          (min (min ((cfg.max_width : ℚ) / (img_width : ℚ))
            ((cfg.max_height : ℚ) / (img_height : ℚ))) 1))) := by
    simp only [get_display_size]
    rw [if_neg hcond]
  rw [hgds]
  constructor
  · exact pyInt_mul_le img_width cfg.max_width _ hw hs0
      (le_trans (min_le_left _ _) (min_le_left _ _))
  · exact pyInt_mul_le img_height cfg.max_height _ hh hs0
      (le_trans (min_le_left _ _) (min_le_right _ _))

theorem get_display_size_within_max_witness :
    ((0 : ℤ) < 1000) ∧ ((0 : ℤ) < 1000) ∧
    (({} : DisplayConfig).min_width ≤ 1000) ∧
    (({} : DisplayConfig).min_height ≤ 1000) ∧
    ((0 : ℤ) ≤ ({} : DisplayConfig).max_width) ∧
    ((0 : ℤ) ≤ ({} : DisplayConfig).max_height) ∧
    ((get_display_size {} 1000 1000).1 ≤ ({} : DisplayConfig).max_width ∧
      (get_display_size {} 1000 1000).2 ≤ ({} : DisplayConfig).max_height) :=
  ⟨by decide, by decide, by decide, by decide, by decide, by decide,
    get_display_size_within_max_when_at_least_min {} 1000 1000 (by decide)
      (by decide) (by decide) (by decide) (by decide) (by decide)⟩

/-- Claim C4 counterexample: the default config has minimums 400×300 and maximums
1200×800; a 100×2000 source is below the minimum width, so the upscale branch
scales by max(400/100, 300/2000) = 4 and returns (400, 8000), whose height
exceeds the configured maximum 800. -/
theorem get_display_size_exceeds_max_counterexample :
    get_display_size {} 100 2000 = (400, 8000) ∧
    ¬ ((get_display_size {} 100 2000).2 ≤ ({} : DisplayConfig).max_height) := by
  have h : get_display_size {} 100 2000 = (400, 8000) := by
    norm_num [get_display_size, pyInt, max_def, min_def]
  refine ⟨h, ?_⟩
  rw [h]
  decide

/-- Claim C2: whenever `calculate_auto_zoom` returns (it raises only while
resolving an empty polygon) and the zoom bounds are ordered, the returned
zoom lies in [min_zoom, max_zoom] and the returned pans lie in
[0, max(0, zoomed_dim − window_dim)] per axis, the zoomed dimensions being
the image dimensions scaled by the returned zoom (rounded with the code's
1-pixel floor). -/
theorem calculate_auto_zoom_within_bounds
    (box : Geometry)
    (img_width img_height display_w display_h window_w window_h : ℤ)
    (target_coverage min_zoom max_zoom : ℚ) (z : ℚ) (px py : ℤ)
    (hz : min_zoom ≤ max_zoom)
    (hres : calculate_auto_zoom box img_width img_height display_w display_h
      window_w window_h target_coverage min_zoom max_zoom = some (z, px, py)) :
    min_zoom ≤ z ∧ z ≤ max_zoom ∧
    0 ≤ px ∧ px ≤ max 0 (zoomed_dim img_width z - window_w) ∧
    0 ≤ py ∧ py ≤ max 0 (zoomed_dim img_height z - window_h) := by
  rw [calculate_auto_zoom] at hres
  cases habs : get_abs_bbox box img_width img_height with
  | none =>
    rw [habs] at hres
    exact absurd hres (by simp)
  | some q =>
    obtain ⟨x1, y1, x2, y2⟩ := q
    rw [habs] at hres
    simp only [Option.some.injEq] at hres
    have hzz : z = (auto_zoom_core x1 y1 x2 y2 img_width img_height display_w
        display_h window_w window_h target_coverage min_zoom max_zoom).1 := by
      rw [hres]
    have hxx : px = (auto_zoom_core x1 y1 x2 y2 img_width img_height display_w
        display_h window_w window_h target_coverage min_zoom max_zoom).2.1 := by
      rw [hres]
    have hyy : py = (auto_zoom_core x1 y1 x2 y2 img_width img_height display_w
        display_h window_w window_h target_coverage min_zoom max_zoom).2.2 := by
      rw [hres]
    subst hzz hxx hyy
    simp only [auto_zoom_core]
    refine ⟨le_max_left _ _, max_le hz (min_le_left _ _), le_max_left _ _,
      max_le (le_max_left 0 _) (min_le_right _ _), le_max_left _ _,
      max_le (le_max_left 0 _) (min_le_right _ _)⟩

theorem calculate_auto_zoom_within_bounds_witness :
    ((0 : ℚ) ≤ 1) ∧
    (calculate_auto_zoom (.gbbox (1/2) (1/2) 1 1) 100 100 100 100 50 50 1 0 1
      = some (1, 25, 25)) ∧
    ((0 : ℚ) ≤ 1 ∧ (1 : ℚ) ≤ 1 ∧ 0 ≤ (25 : ℤ) ∧
      (25 : ℤ) ≤ max 0 (zoomed_dim 100 1 - 50) ∧ 0 ≤ (25 : ℤ) ∧
      (25 : ℤ) ≤ max 0 (zoomed_dim 100 1 - 50)) := by
  have hres : calculate_auto_zoom (.gbbox (1/2) (1/2) 1 1) 100 100 100 100 50
      50 1 0 1 = some (1, 25, 25) := by
    norm_num [calculate_auto_zoom, get_abs_bbox, bbox_to_absolute,
      auto_zoom_core, pyInt, pyRound, zoomed_dim, max_def, min_def]
  exact ⟨by norm_num, hres,
    calculate_auto_zoom_within_bounds (.gbbox (1/2) (1/2) 1 1) 100 100 100 100
      50 50 1 0 1 1 25 25 (by norm_num) hres⟩

/-- Claim C7 counterexample: for bbox (0.4, 0.4, 0.2, 0.2) on a 1000×1000 image the
default display config yields display size (800, 800); with window 640×640,
coverage 0.6 and zoom bounds [0.1, 5.0] the computed zoom is 3.0 in display
space times scale 0.8, i.e. 2.4 — it is not clamped to the maximum 5.0. -/
theorem auto_frame_scenario_zoom_not_clamped_counterexample :
    get_display_size {} 1000 1000 = (800, 800) ∧
    calculate_auto_zoom (.gbbox (4/10) (4/10) (2/10) (2/10)) 1000 1000 800 800
      640 640 (6/10) (1/10) 5 = some (12/5, 640, 640) ∧
    (12/5 : ℚ) ≠ 5 := by
  refine ⟨?_, ?_, by norm_num⟩
  · norm_num [get_display_size, pyInt, max_def, min_def]
  · norm_num [calculate_auto_zoom, get_abs_bbox, bbox_to_absolute,
      auto_zoom_core, pyInt, pyRound, zoomed_dim, max_def, min_def]

/-- Claim C7 amended: in the scenario the display size from the default config is
(800, 800) and the auto-frame returns zoom 2.4 (3.0 in reduced-display space
times scale 0.8, strictly inside [0.1, 5.0], not clamped) with pan
(640, 640), which is exactly the unclamped value centering the region center
(400, 400) in the 640×640 window and lies within the pan bounds. -/
theorem auto_frame_scenario_values :
    get_display_size {} 1000 1000 = (800, 800) ∧
    calculate_auto_zoom (.gbbox (4/10) (4/10) (2/10) (2/10)) 1000 1000 800 800
      640 640 (6/10) (1/10) 5 = some (12/5, 640, 640) ∧
    ((1/10 : ℚ) ≤ 12/5 ∧ (12/5 : ℚ) < 5) ∧
    (640 : ℤ) = pyRound ((400 : ℚ) * (12/5) - (640 : ℚ) / 2) ∧
    ((0 : ℤ) ≤ 640 ∧ (640 : ℤ) ≤ max 0 (zoomed_dim 1000 (12/5) - 640)) := by
  refine ⟨?_, ?_, by norm_num, ?_, ?_⟩
  · norm_num [get_display_size, pyInt, max_def, min_def]
  · norm_num [calculate_auto_zoom, get_abs_bbox, bbox_to_absolute,
      auto_zoom_core, pyInt, pyRound, zoomed_dim, max_def, min_def]
  · norm_num [pyRound]
  · constructor
    · norm_num
    · norm_num [zoomed_dim, pyRound, max_def]

theorem find?_filterMap_cons {B : Type} (p : B → Bool) (r : Option B)
    (l : List (Option B)) :
    ((r :: l).filterMap id).find? p =
      match r with
      | some b => if p b then some b else (l.filterMap id).find? p
      | none => (l.filterMap id).find? p := by
  cases r with
  | none => simp [List.filterMap_cons]
  | some b =>
    simp only [List.filterMap_cons, id_eq]
    cases hp : p b with
    | true =>
      rw [List.find?_cons_of_pos _ hp]
      simp
    | false =>
      rw [List.find?_cons_of_neg _ (by simp [hp])]
      simp

/-- Claim C6: a content-bbox candidate is accepted iff its area is between 1% and
95% of the image area (inclusive) and its width and height are both at least
50 pixels, and the robust detector returns the first of the four strategy
candidates (in their fixed priority order) satisfying that predicate, else
none. -/
theorem bbox_validity_and_first_valid_strategy :
    (∀ (x1 y1 x2 y2 img_w img_h : ℤ),
      is_valid_bbox (x1, y1, x2, y2) img_w img_h = true ↔
        (((img_w * img_h : ℤ) : ℚ) * (1/100) ≤ (((x2 - x1) * (y2 - y1) : ℤ) : ℚ) ∧
          (((x2 - x1) * (y2 - y1) : ℤ) : ℚ) ≤ ((img_w * img_h : ℤ) : ℚ) * (95/100) ∧
          50 ≤ x2 - x1 ∧ 50 ≤ y2 - y1)) ∧
    (∀ (img_w img_h : ℤ) (r1 r2 r3 r4 : Option (ℤ × ℤ × ℤ × ℤ)),
      detect_content_bbox_robust img_w img_h r1 r2 r3 r4 =
        ([r1, r2, r3, r4].filterMap id).find?
          (fun b => is_valid_bbox b img_w img_h)) := by
  constructor
  · intro x1 y1 x2 y2 img_w img_h
    simp only [is_valid_bbox]
    split_ifs with h1 h2 h3
    · simp only [Bool.false_eq_true, false_iff]
      rintro ⟨-, hhi, -, -⟩
      exact absurd h1 (not_lt.mpr hhi)
    · simp only [Bool.false_eq_true, false_iff]
      rintro ⟨hlo, -, -, -⟩
      exact absurd h2 (not_lt.mpr hlo)
    · simp only [Bool.false_eq_true, false_iff]
      rintro ⟨-, -, hw, hh⟩
      rcases h3 with h3 | h3 <;> omega
    · simp only [true_iff]
      push_neg at h3
      exact ⟨not_lt.mp h2, not_lt.mp h1, h3.1, h3.2⟩
  · intro img_w img_h r1 r2 r3 r4
    rw [find?_filterMap_cons, find?_filterMap_cons, find?_filterMap_cons,
      find?_filterMap_cons]
    simp only [List.filterMap_nil, List.find?_nil]
    cases r1 <;> cases r2 <;> cases r3 <;> cases r4 <;>
      simp [detect_content_bbox_robust, tryStrategy]
